import Mathlib

/-!
Shallow embedding of the Game Boy emulator core (CPU, registers, memory bus,
tile decoder) and proofs about it.  Machine integers are modelled as `Nat`
with explicit `% 256` / `% 65536` where the Rust code uses wrapping or
overflowing operations.  Rust operations that can panic (checked `+`/`-`,
array indexing, `todo!()`, `unreachable!()`, a failed decode) are modelled by
returning `none`.
-/

namespace GameBoy

/-! ## memory_map.rs -/

def BOOT_ROM_START : Nat := 0x0000
def BOOT_ROM_END : Nat := 0x00FF
def BOOT_ROM_SIZE : Nat := BOOT_ROM_END - BOOT_ROM_START + 1

def GAME_ROM_BANK_0_START : Nat := 0x0000
def GAME_ROM_BANK_0_END : Nat := 0x3FFF
/-- Mirrors the source, which computes the size without the `+ 1` used by the
other regions: the value is 0x3FFF, one byte short of the region's width. -/
def GAME_ROM_BANK_0_SIZE : Nat := GAME_ROM_BANK_0_END - GAME_ROM_BANK_0_START

def GAME_ROM_BANK_N_START : Nat := 0x4000
def GAME_ROM_BANK_N_END : Nat := 0x7FFF
/-- Mirrors the source, again computed without `+ 1`: the value is 0x3FFF. -/
def GAME_ROM_BANK_N_SIZE : Nat := GAME_ROM_BANK_N_END - GAME_ROM_BANK_N_START

def TILE_RAM_START : Nat := 0x8000
def TILE_RAM_END : Nat := 0x97FF
def TILE_RAM_SIZE : Nat := TILE_RAM_END - TILE_RAM_START + 1

def BACKGROUND_MAP_START : Nat := 0x9800
def BACKGROUND_MAP_END : Nat := 0x9FFF

def CARTRIDGE_RAM_START : Nat := 0xA000
def CARTRIDGE_RAM_END : Nat := 0xBFFF
def CARTRIDGE_RAM_SIZE : Nat := CARTRIDGE_RAM_END - CARTRIDGE_RAM_START + 1

def WORKING_RAM_START : Nat := 0xC000
def WORKING_RAM_END : Nat := 0xDFFF
def WORKING_RAM_SIZE : Nat := WORKING_RAM_END - WORKING_RAM_START + 1

def ECHO_RAM_START : Nat := 0xE000
def ECHO_RAM_END : Nat := 0xFDFF

def OAM_START : Nat := 0xFE00
def OAM_END : Nat := 0xFE9F
def OAM_SIZE : Nat := OAM_END - OAM_START + 1

def UNUSED_MEMORY_START : Nat := 0xFEA0
def UNUSED_MEMORY_END : Nat := 0xFEFF

def IO_REGISTER_START : Nat := 0xFF00
def IO_REGISTER_END : Nat := 0xFF7F

def HIGH_RAM_START : Nat := 0xFF80
def HIGH_RAM_END : Nat := 0xFFFE
def HIGH_RAM_SIZE : Nat := HIGH_RAM_END - HIGH_RAM_START + 1

def INTERRUPT_ENABLE_REGISTER : Nat := 0xFFFF

/-! ## Rust fixed-size arrays

A Rust array `[u8; SIZE]` is modelled as a function `Nat → Nat` together with
its size; indexing `arr[i]` panics when `i >= SIZE`, modelled as `none`. -/

/-- Indexing read of a fixed-size array: panics (`none`) out of bounds. -/
def arrayGet (size : Nat) (arr : Nat → Nat) (index : Nat) : Option Nat :=
  if index < size then some (arr index) else none

/-- Indexing write of a fixed-size array: panics (`none`) out of bounds. -/
def arrayWrite (size : Nat) (arr : Nat → Nat) (index value : Nat) :
    Option (Nat → Nat) :=
  if index < size then some (fun j => if j = index then value else arr j) else none

/-! ## cpu/registers.rs -/

/-- The CPU flag register: four booleans packed into the upper bits of F. -/
structure FlagsRegister where
  zero : Bool
  subtract : Bool
  half_carry : Bool
  carry : Bool
deriving DecidableEq

def FlagsRegister.default : FlagsRegister :=
  { zero := false, subtract := false, half_carry := false, carry := false }

def ZERO_FLAG_BYTE_POSITION : Nat := 7
def SUBTRACT_FLAG_BYTE_POSITION : Nat := 6
def HALF_CARRY_FLAG_BYTE_POSITION : Nat := 5
def CARRY_FLAG_BYTE_POSITION : Nat := 4

/-- Transcribes `impl From<FlagsRegister> for u8`. -/
def FlagsRegister.toByte (flag : FlagsRegister) : Nat :=
  ((if flag.zero then 1 else 0) <<< ZERO_FLAG_BYTE_POSITION) |||
    ((if flag.subtract then 1 else 0) <<< SUBTRACT_FLAG_BYTE_POSITION) |||
    ((if flag.half_carry then 1 else 0) <<< HALF_CARRY_FLAG_BYTE_POSITION) |||
    ((if flag.carry then 1 else 0) <<< CARRY_FLAG_BYTE_POSITION)

/-- Transcribes `impl From<u8> for FlagsRegister`. -/
def FlagsRegister.fromByte (byte : Nat) : FlagsRegister :=
  { zero := Nat.land (byte >>> ZERO_FLAG_BYTE_POSITION) 0b1 != 0
    subtract := Nat.land (byte >>> SUBTRACT_FLAG_BYTE_POSITION) 0b1 != 0
    half_carry := Nat.land (byte >>> HALF_CARRY_FLAG_BYTE_POSITION) 0b1 != 0
    carry := Nat.land (byte >>> CARRY_FLAG_BYTE_POSITION) 0b1 != 0 }

/-- The eight 8-bit CPU registers (seven general ones plus the flags). -/
structure Registers where
  a : Nat
  b : Nat
  c : Nat
  d : Nat
  e : Nat
  f : FlagsRegister
  h : Nat
  l : Nat
deriving DecidableEq

def Registers.default : Registers :=
  { a := 0, b := 0, c := 0, d := 0, e := 0, f := FlagsRegister.default, h := 0, l := 0 }

/-- Transcribes `Registers::get_16_bit_register`. -/
def Registers.get_16_bit_register (high low : Nat) : Nat :=
  (high <<< 8) ||| low

def Registers.get_bc (r : Registers) : Nat := Registers.get_16_bit_register r.b r.c

def Registers.get_de (r : Registers) : Nat := Registers.get_16_bit_register r.d r.e

def Registers.get_hl (r : Registers) : Nat := Registers.get_16_bit_register r.h r.l

/-- Transcribes `Registers::set_16_bit_register`: the high half is
`(value & 0xFF00) >> 8`, the low half is the `as u8` truncation of the value. -/
def Registers.set_16_bit_register (value : Nat) : Nat × Nat :=
  (Nat.land value 0xFF00 >>> 8, value % 256)

def Registers.set_bc (r : Registers) (value : Nat) : Registers :=
  { r with b := (Registers.set_16_bit_register value).1
           c := (Registers.set_16_bit_register value).2 }

def Registers.set_de (r : Registers) (value : Nat) : Registers :=
  { r with d := (Registers.set_16_bit_register value).1
           e := (Registers.set_16_bit_register value).2 }

def Registers.set_hl (r : Registers) (value : Nat) : Registers :=
  { r with h := (Registers.set_16_bit_register value).1
           l := (Registers.set_16_bit_register value).2 }

/-- Modelled from the spec: `Registers::get_af` is called by
`Cpu::get_stack_target_value` but is not among the repository's source files;
per the spec the AF pair combines A (high byte) with the flags byte. -/
def Registers.get_af (r : Registers) : Nat :=
  Registers.get_16_bit_register r.a r.f.toByte

/-- Modelled from the spec: `Registers::set_af` is called by
`Cpu::set_stack_target_value` but is not among the repository's source files;
per the spec it writes A from the high byte and the flags from the low byte. -/
def Registers.set_af (r : Registers) (value : Nat) : Registers :=
  { r with a := (Registers.set_16_bit_register value).1
           f := FlagsRegister.fromByte ((Registers.set_16_bit_register value).2) }

/-- Index addressing one bit of a register, kept in range by masking. -/
structure U3 where
  val : Nat
deriving DecidableEq

def U3.MAX : Nat := 0b111

/-- Transcribes `U3::wrap`: keep only the low three bits. -/
def U3.wrap (value : Nat) : U3 := ⟨Nat.land value U3.MAX⟩

/-! ## cpu/instructions/parameter.rs -/

/-- Which 8-bit register an instruction should affect. -/
inductive TargetRegister8 where
  | A | B | C | D | E | H | L
deriving DecidableEq

/-- Combined 16-bit registers. -/
inductive TargetRegister16 where
  | BC | DE | HL
deriving DecidableEq

/-- What flag state a jump should check. -/
inductive JumpTest where
  | NotZero | Zero | NotCarry | Carry | Always
deriving DecidableEq

inductive LoadByteTarget where
  | A | B | C | D | E | H | L | Hli
deriving DecidableEq

inductive LoadByteSource where
  | A | B | C | D | E | H | L | D8 | Hli
deriving DecidableEq

/-- The different ways a load instruction can move data. -/
inductive LoadType where
  | Byte (target : LoadByteTarget) (source : LoadByteSource)
  | Word
  | AFromIndirect
  | IndirectFromA
  | AFromByteAddress
  | ByteAddressFromA
deriving DecidableEq

inductive StackTarget where
  | AF | BC | DE | HL
deriving DecidableEq

/-! ## cpu/instructions.rs: the instruction set -/

/-- The assembly instructions the emulator can execute. -/
inductive Instruction where
  | Add (r8 : TargetRegister8)
  | AddHl (r16 : TargetRegister16)
  | Adc (r8 : TargetRegister8)
  | Sub (r8 : TargetRegister8)
  | Sbc (r8 : TargetRegister8)
  | Cp (r8 : TargetRegister8)
  | And (r8 : TargetRegister8)
  | Or (r8 : TargetRegister8)
  | Xor (r8 : TargetRegister8)
  | Inc (r8 : TargetRegister8)
  | Dec (r8 : TargetRegister8)
  | Ccf
  | Scf
  | Cpl
  | Bit (index : U3) (r8 : TargetRegister8)
  | Res (index : U3) (r8 : TargetRegister8)
  | Set (index : U3) (r8 : TargetRegister8)
  | Rr (r8 : TargetRegister8)
  | Rl (r8 : TargetRegister8)
  | Rrc (r8 : TargetRegister8)
  | Rlc (r8 : TargetRegister8)
  | Rra
  | Rla
  | Rrca
  | Rlca
  | Srl (r8 : TargetRegister8)
  | Sra (r8 : TargetRegister8)
  | Sla (r8 : TargetRegister8)
  | Swap (r8 : TargetRegister8)
  | Jp (condition : JumpTest)
  | Ld (load_type : LoadType)
  | Push (r16 : StackTarget)
  | Pop (r16 : StackTarget)
  | Call (condition : JumpTest)
  | Ret (condition : JumpTest)
  | Nop
  | Halt
deriving DecidableEq

/-! ## gpu.rs -/

def VRAM_BEGIN : Nat := 0x8000
def VRAM_END : Nat := 0x9FFF
def VRAM_SIZE : Nat := VRAM_END - VRAM_BEGIN + 1
def TILESET_STORAGE_END : Nat := 0x1800

/-- A 2-bit pixel colour index. -/
inductive TilePixelValue where
  | Zero | One | Two | Three
deriving DecidableEq

/-- Numeric value of a pixel, `(high_bit <<< 1) ||| low_bit`. -/
def TilePixelValue.toNat : TilePixelValue → Nat
  | .Zero => 0
  | .One => 1
  | .Two => 2
  | .Three => 3

/-- The video subsystem: raw VRAM bytes, the derived tile cache (384 tiles of
8 rows of 8 pixels, modelled as a curried function), and raw OAM bytes. -/
structure GPU where
  vram : Nat → Nat
  tile_set : Nat → Nat → Nat → TilePixelValue
  oam : Nat → Nat

def GPU.default : GPU :=
  { vram := fun _ => 0, tile_set := fun _ _ _ => TilePixelValue.Zero, oam := fun _ => 0 }

/-- Transcribes `GPU::read_vram`: a plain array read of `vram`, which panics
(`none`) when the address reaches past the 0x2000-byte array. -/
def GPU.read_vram (g : GPU) (address : Nat) : Option Nat :=
  arrayGet VRAM_SIZE g.vram address

/-- Transcribes `GPU::write_vram`: store the raw byte; if the address is in the
tile-data sub-region, recompute the eight pixels of the affected tile row from
the even/odd byte pair holding the row's two bit-planes. -/
def GPU.write_vram (g : GPU) (address value : Nat) : Option GPU :=
  if address < VRAM_SIZE then
    let vram1 : Nat → Nat := fun j => if j = address then value else g.vram j
    if TILESET_STORAGE_END ≤ address then
      some { g with vram := vram1 }
    else
      let normalized_address := Nat.land address 0xFFFE
      let byte1 := vram1 normalized_address
      let byte2 := vram1 (normalized_address + 1)
      let tile_index := address / 16
      let row_index := address % 16 / 2
      let pixel : Nat → TilePixelValue := fun pixel_index =>
        let mask := 1 <<< (7 - pixel_index)
        let lsb := Nat.land byte1 mask
        let msb := Nat.land byte2 mask
        if lsb ≠ 0 then (if msb ≠ 0 then .Three else .One)
        else (if msb ≠ 0 then .Two else .Zero)
      some { g with
              vram := vram1
              tile_set := fun t r p =>
                if t = tile_index ∧ r = row_index ∧ p < 8 then pixel p
                else g.tile_set t r p }
  else none

/-- Transcribes `GPU::read_oam`. -/
def GPU.read_oam (g : GPU) (address : Nat) : Option Nat :=
  arrayGet OAM_SIZE g.oam address

/-- Transcribes `GPU::write_oam`, whose body is `todo!()`: every call panics. -/
def GPU.write_oam (_g : GPU) (_address _value : Nat) : Option GPU :=
  none

/-! ## memory_bus.rs -/

/-- The full address-space router and its backing stores. -/
structure MemoryBus where
  boot_rom : Option (Nat → Nat)
  rom_bank_0 : Nat → Nat
  rom_bank_n : Nat → Nat
  cartridge_ram : Nat → Nat
  working_ram : Nat → Nat
  high_ram : Nat → Nat
  gpu : GPU

def MemoryBus.default : MemoryBus :=
  { boot_rom := some (fun _ => 0)
    rom_bank_0 := fun _ => 0
    rom_bank_n := fun _ => 0
    cartridge_ram := fun _ => 0
    working_ram := fun _ => 0
    high_ram := fun _ => 0
    gpu := GPU.default }

/-- Transcribes `MemoryBus::read_io_register`, whose body is `todo!()`. -/
def MemoryBus.read_io_register (_bus : MemoryBus) (_address : Nat) : Option Nat :=
  none

/-- Transcribes `MemoryBus::write_io_register`, whose body is `todo!()`. -/
def MemoryBus.write_io_register (_bus : MemoryBus) (_address _value : Nat) :
    Option MemoryBus :=
  none

/-- Transcribes `MemoryBus::interrupt_enable`, whose body is `todo!()`. -/
def MemoryBus.interrupt_enable (_bus : MemoryBus) : Option Nat :=
  none

/-- Transcribes `MemoryBus::read_byte`: the match arms in source order.  Array
reads use each backing array's declared size; `unreachable!()` is `none`. -/
def MemoryBus.read_byte (bus : MemoryBus) (address : Nat) : Option Nat :=
  if BOOT_ROM_START ≤ address ∧ address ≤ BOOT_ROM_END then
    match bus.boot_rom with
    | some boot_rom => arrayGet BOOT_ROM_SIZE boot_rom address
    | none => arrayGet GAME_ROM_BANK_0_SIZE bus.rom_bank_0 address
  else if GAME_ROM_BANK_0_START ≤ address ∧ address ≤ GAME_ROM_BANK_0_END then
    arrayGet GAME_ROM_BANK_0_SIZE bus.rom_bank_0 address
  else if GAME_ROM_BANK_N_START ≤ address ∧ address ≤ GAME_ROM_BANK_N_END then
    arrayGet GAME_ROM_BANK_N_SIZE bus.rom_bank_n address
  else if VRAM_BEGIN ≤ address ∧ address ≤ VRAM_END then
    bus.gpu.read_vram address
  else if CARTRIDGE_RAM_START ≤ address ∧ address ≤ CARTRIDGE_RAM_END then
    arrayGet CARTRIDGE_RAM_SIZE bus.cartridge_ram (address - CARTRIDGE_RAM_START)
  else if WORKING_RAM_START ≤ address ∧ address ≤ WORKING_RAM_END then
    arrayGet WORKING_RAM_SIZE bus.working_ram (address - WORKING_RAM_START)
  else if ECHO_RAM_START ≤ address ∧ address ≤ ECHO_RAM_END then
    arrayGet WORKING_RAM_SIZE bus.working_ram (address - ECHO_RAM_START)
  else if OAM_START ≤ address ∧ address ≤ OAM_END then
    bus.gpu.read_oam (address - OAM_START)
  else if IO_REGISTER_START ≤ address ∧ address ≤ IO_REGISTER_END then
    bus.read_io_register (address - IO_REGISTER_START)
  else if UNUSED_MEMORY_START ≤ address ∧ address ≤ UNUSED_MEMORY_END then
    some 0
  else if HIGH_RAM_START ≤ address ∧ address ≤ HIGH_RAM_END then
    arrayGet HIGH_RAM_SIZE bus.high_ram (address - HIGH_RAM_START)
  else if address = INTERRUPT_ENABLE_REGISTER then
    bus.interrupt_enable
  else
    none

/-- Transcribes `MemoryBus::write_byte`: the match arms in source order.  Note
the source has no arm for the echo region, the switchable ROM bank or the boot
overlay on the write side; those addresses reach `unreachable!()` (`none`). -/
def MemoryBus.write_byte (bus : MemoryBus) (address value : Nat) : Option MemoryBus :=
  if GAME_ROM_BANK_0_START ≤ address ∧ address ≤ GAME_ROM_BANK_0_END then
    (arrayWrite GAME_ROM_BANK_0_SIZE bus.rom_bank_0 address value).map
      fun arr => { bus with rom_bank_0 := arr }
  else if VRAM_BEGIN ≤ address ∧ address ≤ VRAM_END then
    (bus.gpu.write_vram (address - VRAM_BEGIN) value).map
      fun g => { bus with gpu := g }
  else if CARTRIDGE_RAM_START ≤ address ∧ address ≤ CARTRIDGE_RAM_END then
    (arrayWrite CARTRIDGE_RAM_SIZE bus.cartridge_ram (address - CARTRIDGE_RAM_START) value).map
      fun arr => { bus with cartridge_ram := arr }
  else if WORKING_RAM_START ≤ address ∧ address ≤ WORKING_RAM_END then
    (arrayWrite WORKING_RAM_SIZE bus.working_ram (address - WORKING_RAM_START) value).map
      fun arr => { bus with working_ram := arr }
  else if OAM_START ≤ address ∧ address ≤ OAM_END then
    (bus.gpu.write_oam (address - OAM_START) value).map
      fun g => { bus with gpu := g }
  else if IO_REGISTER_START ≤ address ∧ address ≤ IO_REGISTER_END then
    bus.write_io_register (address - IO_REGISTER_START) value
  else if UNUSED_MEMORY_START ≤ address ∧ address ≤ UNUSED_MEMORY_END then
    some bus
  else if HIGH_RAM_START ≤ address ∧ address ≤ HIGH_RAM_END then
    (arrayWrite HIGH_RAM_SIZE bus.high_ram (address - HIGH_RAM_START) value).map
      fun arr => { bus with high_ram := arr }
  else if address = INTERRUPT_ENABLE_REGISTER then
    none
  else
    none

/-! ## cpu/mod.rs: the CPU state -/

/-- Byte that indicates a prefix instruction. -/
def PREFIX_BYTE : Nat := 0xCB

/-- The CPU: register file, program counter, stack pointer, bus, halted flag. -/
structure Cpu where
  registers : Registers
  pc : Nat
  sp : Nat
  bus : MemoryBus
  is_halted : Bool

/-- Transcribes `impl Default for Cpu`: zeroed registers and pc, the stack
pointer at the top of memory, a default bus, not halted. -/
def Cpu.default : Cpu :=
  { registers := Registers.default
    pc := 0
    sp := 0xFFFF
    bus := MemoryBus.default
    is_halted := false }

/-- Transcribes `Cpu::get_r8_value`. -/
def Cpu.get_r8_value (cpu : Cpu) (target : TargetRegister8) : Nat :=
  match target with
  | .A => cpu.registers.a
  | .B => cpu.registers.b
  | .C => cpu.registers.c
  | .D => cpu.registers.d
  | .E => cpu.registers.e
  | .H => cpu.registers.h
  | .L => cpu.registers.l

/-- Models a store through `Cpu::get_r8_ref`: writing the selected register. -/
def Cpu.set_r8 (cpu : Cpu) (target : TargetRegister8) (value : Nat) : Cpu :=
  match target with
  | .A => { cpu with registers := { cpu.registers with a := value } }
  | .B => { cpu with registers := { cpu.registers with b := value } }
  | .C => { cpu with registers := { cpu.registers with c := value } }
  | .D => { cpu with registers := { cpu.registers with d := value } }
  | .E => { cpu with registers := { cpu.registers with e := value } }
  | .H => { cpu with registers := { cpu.registers with h := value } }
  | .L => { cpu with registers := { cpu.registers with l := value } }

/-- Replace the four flags of a CPU state. -/
def Cpu.setFlags (cpu : Cpu) (f : FlagsRegister) : Cpu :=
  { cpu with registers := { cpu.registers with f := f } }

/-- Transcribes `Cpu::get_r16_value`. -/
def Cpu.get_r16_value (cpu : Cpu) (target : TargetRegister16) : Nat :=
  match target with
  | .BC => cpu.registers.get_bc
  | .DE => cpu.registers.get_de
  | .HL => cpu.registers.get_hl

/-- Transcribes `Cpu::read_next_byte`: a wrapping increment of the pc. -/
def Cpu.read_next_byte (cpu : Cpu) : Option Nat :=
  cpu.bus.read_byte ((cpu.pc + 1) % 65536)

/-- Transcribes `Cpu::read_next_word`: the checked additions `pc + 1` and
`pc + 2` overflow u16 (and panic) when the pc is at the top of memory. -/
def Cpu.read_next_word (cpu : Cpu) : Option Nat :=
  if 0xFFFF < cpu.pc + 2 then none
  else do
    let msb ← cpu.bus.read_byte (cpu.pc + 2)
    let lsb ← cpu.bus.read_byte (cpu.pc + 1)
    pure ((msb <<< 8) ||| lsb)

/-- Transcribes `Cpu::get_jump_test_result`. -/
def Cpu.get_jump_test_result (cpu : Cpu) (condition : JumpTest) : Bool :=
  match condition with
  | .Zero => cpu.registers.f.zero
  | .NotZero => !cpu.registers.f.zero
  | .Carry => cpu.registers.f.carry
  | .NotCarry => !cpu.registers.f.carry
  | .Always => true

/-- Transcribes `Cpu::get_stack_target_value`. -/
def Cpu.get_stack_target_value (cpu : Cpu) (target : StackTarget) : Nat :=
  match target with
  | .AF => cpu.registers.get_af
  | .BC => cpu.registers.get_bc
  | .DE => cpu.registers.get_de
  | .HL => cpu.registers.get_hl

/-- Transcribes `Cpu::set_stack_target_value`. -/
def Cpu.set_stack_target_value (cpu : Cpu) (target : StackTarget) (value : Nat) : Cpu :=
  match target with
  | .AF => { cpu with registers := cpu.registers.set_af value }
  | .BC => { cpu with registers := cpu.registers.set_bc value }
  | .DE => { cpu with registers := cpu.registers.set_de value }
  | .HL => { cpu with registers := cpu.registers.set_hl value }

/-! ## cpu/instructions.rs: instruction handlers

Handlers that can panic (checked `+` / `-=` / `+=`, bus accesses) return an
`Option`; the rest are total. -/

/-- Transcribes `Cpu::add_a` (`overflowing_add`, so total). -/
def Cpu.add_a (cpu : Cpu) (target : TargetRegister8) : Cpu :=
  let value := cpu.get_r8_value target
  let new_value := (cpu.registers.a + value) % 256
  let did_overflow := 255 < cpu.registers.a + value
  let cpu := cpu.setFlags
    { zero := decide (new_value = 0)
      subtract := false
      carry := did_overflow
      half_carry := decide (0xF < Nat.land cpu.registers.a 0xF + Nat.land value 0xF) }
  { cpu with registers := { cpu.registers with a := new_value } }

/-- Transcribes `Cpu::add_hl` (16-bit `overflowing_add`, so total). -/
def Cpu.add_hl (cpu : Cpu) (target : TargetRegister16) : Cpu :=
  let value := cpu.get_r16_value target
  let new_value := (cpu.registers.get_hl + value) % 65536
  let did_overflow := 65535 < cpu.registers.get_hl + value
  let cpu := cpu.setFlags
    { zero := decide (new_value = 0)
      subtract := false
      carry := did_overflow
      half_carry := decide (0xF < Nat.land cpu.registers.get_hl 0xF + Nat.land value 0xF) }
  { cpu with registers := cpu.registers.set_hl new_value }

/-- Transcribes `Cpu::add_with_carry`: the operand is the register value plus
the old carry computed with a checked u8 addition, which panics (`none`) when
the register holds 0xFF and the carry flag is set. -/
def Cpu.add_with_carry (cpu : Cpu) (target : TargetRegister8) : Option Cpu :=
  let old_carry := if cpu.registers.f.carry then 1 else 0
  if 255 < cpu.get_r8_value target + old_carry then none
  else
    let value := cpu.get_r8_value target + old_carry
    let new_value := (cpu.registers.a + value) % 256
    let did_overflow := 255 < cpu.registers.a + value
    let cpu := cpu.setFlags
      { zero := decide (new_value = 0)
        subtract := false
        carry := did_overflow
        half_carry := decide (0xF < Nat.land cpu.registers.a 0xF + Nat.land value 0xF) }
    some { cpu with registers := { cpu.registers with a := new_value } }

/-- Transcribes `Cpu::compare` (`overflowing_sub`, total); returns the computed
value alongside the new state so `sub` can reuse it, as in the source. -/
def Cpu.compare (cpu : Cpu) (target : TargetRegister8) : Nat × Cpu :=
  let value := cpu.get_r8_value target
  let new_value := (cpu.registers.a + 256 - value % 256) % 256
  let did_overflow := cpu.registers.a < value
  (new_value,
    cpu.setFlags
      { zero := decide (new_value = 0)
        subtract := true
        carry := did_overflow
        half_carry := decide (0xF ≤ Nat.land cpu.registers.a 0xF + Nat.land new_value 0xF) })

/-- Transcribes `Cpu::sub`: reuse the compare logic and store its result. -/
def Cpu.sub (cpu : Cpu) (target : TargetRegister8) : Cpu :=
  let res := cpu.compare target
  { res.2 with registers := { res.2.registers with a := res.1 } }

/-- Transcribes `Cpu::sub_with_carry`: like `add_with_carry`, the checked
addition of the old carry to the operand can panic (`none`). -/
def Cpu.sub_with_carry (cpu : Cpu) (target : TargetRegister8) : Option Cpu :=
  let old_carry := if cpu.registers.f.carry then 1 else 0
  if 255 < cpu.get_r8_value target + old_carry then none
  else
    let value := cpu.get_r8_value target + old_carry
    let new_value := (cpu.registers.a + 256 - value % 256) % 256
    let did_overflow := cpu.registers.a < value
    let cpu := cpu.setFlags
      { zero := decide (new_value = 0)
        subtract := true
        carry := did_overflow
        half_carry := decide (0xF ≤ Nat.land cpu.registers.a 0xF + Nat.land new_value 0xF) }
    some { cpu with registers := { cpu.registers with a := new_value } }

/-- Transcribes `Cpu::and`: the zero flag is computed from A before the
bitwise update is written, as in the source. -/
def Cpu.and (cpu : Cpu) (target : TargetRegister8) : Cpu :=
  let value := cpu.get_r8_value target
  let cpu := cpu.setFlags
    { zero := decide (cpu.registers.a = 0)
      subtract := false
      half_carry := true
      carry := false }
  { cpu with registers := { cpu.registers with a := Nat.land cpu.registers.a value } }

/-- Transcribes `Cpu::or` (same flag-before-mutation ordering). -/
def Cpu.or (cpu : Cpu) (target : TargetRegister8) : Cpu :=
  let value := cpu.get_r8_value target
  let cpu := cpu.setFlags
    { zero := decide (cpu.registers.a = 0)
      subtract := false
      half_carry := false
      carry := false }
  { cpu with registers := { cpu.registers with a := Nat.lor cpu.registers.a value } }

/-- Transcribes `Cpu::xor` (same flag-before-mutation ordering). -/
def Cpu.xor (cpu : Cpu) (target : TargetRegister8) : Cpu :=
  let value := cpu.get_r8_value target
  let cpu := cpu.setFlags
    { zero := decide (cpu.registers.a = 0)
      subtract := false
      half_carry := false
      carry := false }
  { cpu with registers := { cpu.registers with a := Nat.xor cpu.registers.a value } }

/-- Transcribes `Cpu::increment`: the checked `*register += 1` panics (`none`)
when the register holds 0xFF. -/
def Cpu.increment (cpu : Cpu) (target : TargetRegister8) : Option Cpu :=
  let v := cpu.get_r8_value target
  if 255 < v + 1 then none
  else
    let cpu := cpu.set_r8 target (v + 1)
    let new_value := cpu.get_r8_value target
    some <| cpu.setFlags
      { cpu.registers.f with
          zero := decide (new_value = 0)
          subtract := false
          half_carry := decide (0xF < Nat.land (new_value - 1) 0xF + 1) }

/-- Transcribes `Cpu::decrement`: the checked `*register -= 1` panics (`none`)
when the register holds 0. -/
def Cpu.decrement (cpu : Cpu) (target : TargetRegister8) : Option Cpu :=
  let v := cpu.get_r8_value target
  if v = 0 then none
  else
    let cpu := cpu.set_r8 target (v - 1)
    let new_value := cpu.get_r8_value target
    some <| cpu.setFlags
      { cpu.registers.f with
          zero := decide (new_value = 0)
          subtract := false
          half_carry := decide (0xF ≤ Nat.land new_value 0xF + Nat.land (new_value + 1) 0xF) }

/-- Transcribes `Cpu::invert_carry_flag`. -/
def Cpu.invert_carry_flag (cpu : Cpu) : Cpu :=
  cpu.setFlags
    { cpu.registers.f with
        subtract := false
        half_carry := false
        carry := !cpu.registers.f.carry }

/-- Transcribes `Cpu::set_carry_flag`. -/
def Cpu.set_carry_flag (cpu : Cpu) : Cpu :=
  cpu.setFlags
    { cpu.registers.f with
        subtract := false
        half_carry := false
        carry := true }

/-- Transcribes `Cpu::complement_a` (bitwise not of the 8-bit A). -/
def Cpu.complement_a (cpu : Cpu) : Cpu :=
  let cpu := cpu.setFlags
    { cpu.registers.f with subtract := true, half_carry := true }
  { cpu with registers := { cpu.registers with a := Nat.xor cpu.registers.a 0xFF } }

/-- Transcribes `Cpu::test_bit`: note the source's local called `is_bit_set`
holds whether the selected bit is clear, and the zero flag is its negation. -/
def Cpu.test_bit (cpu : Cpu) (index : U3) (target : TargetRegister8) : Cpu :=
  let value := cpu.get_r8_value target
  let mask := 1 <<< index.val
  let is_bit_clear := decide (Nat.land value mask >>> index.val = 0)
  cpu.setFlags
    { cpu.registers.f with
        subtract := false
        half_carry := true
        zero := !is_bit_clear }

/-- Transcribes `Cpu::unset_bit` (`!(1 << index)` on u8 is an xor with 0xFF). -/
def Cpu.unset_bit (cpu : Cpu) (index : U3) (target : TargetRegister8) : Cpu :=
  let zero_bit := Nat.xor 0xFF (1 <<< index.val)
  cpu.set_r8 target (Nat.land (cpu.get_r8_value target) zero_bit)

/-- Transcribes `Cpu::set_bit`. -/
def Cpu.set_bit (cpu : Cpu) (index : U3) (target : TargetRegister8) : Cpu :=
  let one_bit := 1 <<< index.val
  cpu.set_r8 target (Nat.lor (cpu.get_r8_value target) one_bit)

/-- Transcribes `Cpu::shift_right_logically`. -/
def Cpu.shift_right_logically (cpu : Cpu) (target : TargetRegister8) : Cpu :=
  let lsb := Nat.land (cpu.get_r8_value target) 0b00000001
  let cpu := cpu.set_r8 target (cpu.get_r8_value target >>> 1)
  cpu.setFlags
    { zero := decide (cpu.get_r8_value target = 0)
      subtract := false
      half_carry := false
      carry := decide (lsb = 1) }

/-- Transcribes `Cpu::rotate_right_with_carry`. -/
def Cpu.rotate_right_with_carry (cpu : Cpu) (target : TargetRegister8) : Cpu :=
  let old_carry := if cpu.registers.f.carry then 1 else 0
  let is_lsb_set := decide (Nat.land (cpu.get_r8_value target) 0b00000001 = 1)
  let shifted := cpu.get_r8_value target >>> 1
  let cpu := cpu.set_r8 target (Nat.lor (old_carry <<< 7) shifted)
  cpu.setFlags
    { zero := decide (cpu.get_r8_value target = 0)
      subtract := false
      half_carry := false
      carry := is_lsb_set }

/-- Transcribes `Cpu::rotate_left_with_carry` (u8 `<<` discards high bits). -/
def Cpu.rotate_left_with_carry (cpu : Cpu) (target : TargetRegister8) : Cpu :=
  let old_carry := if cpu.registers.f.carry then 1 else 0
  let is_msb_set := decide (Nat.land (cpu.get_r8_value target) 0b10000000 = 128)
  let shifted := (cpu.get_r8_value target <<< 1) % 256
  let cpu := cpu.set_r8 target (Nat.lor old_carry shifted)
  cpu.setFlags
    { zero := decide (cpu.get_r8_value target = 0)
      subtract := false
      half_carry := false
      carry := is_msb_set }

/-- Transcribes `Cpu::rotate_right_no_carry`. -/
def Cpu.rotate_right_no_carry (cpu : Cpu) (target : TargetRegister8) : Cpu :=
  let lsb := Nat.land (cpu.get_r8_value target) 0b00000001
  let shifted := cpu.get_r8_value target >>> 1
  let cpu := cpu.set_r8 target (Nat.lor (lsb <<< 7) shifted)
  cpu.setFlags
    { zero := decide (cpu.get_r8_value target = 0)
      subtract := false
      half_carry := false
      carry := decide (lsb = 1) }

/-- Transcribes `Cpu::rotate_left_no_carry`, including its hardcoded
`zero := false`. -/
def Cpu.rotate_left_no_carry (cpu : Cpu) (target : TargetRegister8) : Cpu :=
  let msb := Nat.land (cpu.get_r8_value target) 0b10000000
  let shifted := (cpu.get_r8_value target <<< 1) % 256
  let cpu := cpu.set_r8 target (Nat.lor msb shifted)
  cpu.setFlags
    { zero := false
      subtract := false
      half_carry := false
      carry := decide (msb = 128) }

/-- Transcribes `Cpu::shift_right_arithmetically` (the source body is the same
logical shift as `shift_right_logically`). -/
def Cpu.shift_right_arithmetically (cpu : Cpu) (target : TargetRegister8) : Cpu :=
  let lsb := Nat.land (cpu.get_r8_value target) 0b00000001
  let cpu := cpu.set_r8 target (cpu.get_r8_value target >>> 1)
  cpu.setFlags
    { zero := decide (cpu.get_r8_value target = 0)
      subtract := false
      half_carry := false
      carry := decide (lsb = 1) }

/-- Transcribes `Cpu::shift_left_arithmetically`. -/
def Cpu.shift_left_arithmetically (cpu : Cpu) (target : TargetRegister8) : Cpu :=
  let msb := Nat.land (cpu.get_r8_value target) 0b10000000
  let cpu := cpu.set_r8 target ((cpu.get_r8_value target <<< 1) % 256)
  cpu.setFlags
    { zero := decide (cpu.get_r8_value target = 0)
      subtract := false
      half_carry := false
      carry := decide (msb = 128) }

/-- Transcribes `Cpu::swap`. -/
def Cpu.swap (cpu : Cpu) (target : TargetRegister8) : Cpu :=
  let new_upper := Nat.land (cpu.get_r8_value target) 0b00001111 <<< 4
  let new_lower := Nat.land (cpu.get_r8_value target) 0b11110000 >>> 4
  let cpu := cpu.set_r8 target (Nat.lor new_upper new_lower)
  cpu.setFlags
    { zero := false
      subtract := false
      half_carry := false
      carry := false }

/-- Transcribes `Cpu::jump`: on a taken jump the two inline bytes are read
little-endian via checked `pc + 1` / `pc + 2`; otherwise advance three bytes. -/
def Cpu.jump (cpu : Cpu) (condition : JumpTest) : Option Nat :=
  if cpu.get_jump_test_result condition then
    if 0xFFFF < cpu.pc + 2 then none
    else do
      let lsb ← cpu.bus.read_byte (cpu.pc + 1)
      let msb ← cpu.bus.read_byte (cpu.pc + 2)
      pure ((msb <<< 8) ||| lsb)
  else
    some ((cpu.pc + 3) % 65536)

/-- Transcribes `Cpu::load`: only the byte form is implemented; the other
load types hit `todo!()` (`none`). -/
def Cpu.load (cpu : Cpu) (load_type : LoadType) : Option (Nat × Cpu) :=
  match load_type with
  | .Byte target source => do
    let source_value ←
      match source with
      | .A => pure cpu.registers.a
      | .B => pure cpu.registers.b
      | .C => pure cpu.registers.c
      | .D => pure cpu.registers.d
      | .E => pure cpu.registers.e
      | .H => pure cpu.registers.h
      | .L => pure cpu.registers.l
      | .D8 => cpu.read_next_byte
      | .Hli => cpu.bus.read_byte cpu.registers.get_hl
    let cpu ←
      match target with
      | .A => pure { cpu with registers := { cpu.registers with a := source_value } }
      | .B => pure { cpu with registers := { cpu.registers with b := source_value } }
      | .C => pure { cpu with registers := { cpu.registers with c := source_value } }
      | .D => pure { cpu with registers := { cpu.registers with d := source_value } }
      | .E => pure { cpu with registers := { cpu.registers with e := source_value } }
      | .H => pure { cpu with registers := { cpu.registers with h := source_value } }
      | .L => pure { cpu with registers := { cpu.registers with l := source_value } }
      | .Hli =>
        (cpu.bus.write_byte cpu.registers.get_hl source_value).map
          fun bus => { cpu with bus := bus }
    match source with
    | .D8 => pure ((cpu.pc + 2) % 65536, cpu)
    | _ => pure ((cpu.pc + 1) % 65536, cpu)
  | _ => none

/-- Transcribes `Cpu::push`: decrement the stack pointer (wrapping) and write
the high byte, then again for the low byte; bus writes can panic (`none`). -/
def Cpu.push (cpu : Cpu) (value : Nat) : Option Cpu := do
  let sp1 := (cpu.sp + 65536 - 1) % 65536
  let bus1 ← cpu.bus.write_byte sp1 (Nat.land value 0xFF00 >>> 8)
  let sp2 := (sp1 + 65536 - 1) % 65536
  let bus2 ← bus1.write_byte sp2 (Nat.land value 0x00FF)
  pure { cpu with sp := sp2, bus := bus2 }

/-- Transcribes `Cpu::pop`: read the low then the high byte, incrementing the
stack pointer (wrapping) after each read. -/
def Cpu.pop (cpu : Cpu) : Option (Nat × Cpu) := do
  let lsb ← cpu.bus.read_byte cpu.sp
  let sp1 := (cpu.sp + 1) % 65536
  let msb ← cpu.bus.read_byte sp1
  let sp2 := (sp1 + 1) % 65536
  pure ((msb <<< 8) ||| lsb, { cpu with sp := sp2 })

/-- Transcribes `Cpu::call`.  Note the source computes the pushed return
address as `self.sp.wrapping_add(3)` — from the stack pointer — even though
its comment says it should be the instruction after the 3-byte call. -/
def Cpu.call (cpu : Cpu) (condition : JumpTest) : Option (Nat × Cpu) :=
  let should_jump := cpu.get_jump_test_result condition
  let next_pc := (cpu.sp + 3) % 65536
  if should_jump then do
    let cpu ← cpu.push next_pc
    let addr ← cpu.read_next_word
    pure (addr, cpu)
  else
    some (next_pc, cpu)

/-- Transcribes `Cpu::ret`. -/
def Cpu.ret (cpu : Cpu) (condition : JumpTest) : Option (Nat × Cpu) :=
  if cpu.get_jump_test_result condition then
    cpu.pop
  else
    some ((cpu.pc + 1) % 65536, cpu)

/-- Transcribes `Cpu::execute`: when halted it returns 0 as the next program
counter without touching any state; otherwise it dispatches the instruction
and defaults to a wrapping `pc + 1` for handlers with no explicit next pc. -/
def Cpu.execute (cpu : Cpu) (instruction : Instruction) : Option (Nat × Cpu) :=
  if cpu.is_halted then some (0, cpu)
  else
    match instruction with
    | .Add r8 => let c := cpu.add_a r8; some ((c.pc + 1) % 65536, c)
    | .AddHl r16 => let c := cpu.add_hl r16; some ((c.pc + 1) % 65536, c)
    | .Adc r8 => (cpu.add_with_carry r8).map fun c => ((c.pc + 1) % 65536, c)
    | .Sub r8 => let c := cpu.sub r8; some ((c.pc + 1) % 65536, c)
    | .Sbc r8 => (cpu.sub_with_carry r8).map fun c => ((c.pc + 1) % 65536, c)
    | .Cp r8 => let c := (cpu.compare r8).2; some ((c.pc + 1) % 65536, c)
    | .And r8 => let c := cpu.and r8; some ((c.pc + 1) % 65536, c)
    | .Or r8 => let c := cpu.or r8; some ((c.pc + 1) % 65536, c)
    | .Xor r8 => let c := cpu.xor r8; some ((c.pc + 1) % 65536, c)
    | .Inc r8 => (cpu.increment r8).map fun c => ((c.pc + 1) % 65536, c)
    | .Dec r8 => (cpu.decrement r8).map fun c => ((c.pc + 1) % 65536, c)
    | .Ccf => let c := cpu.invert_carry_flag; some ((c.pc + 1) % 65536, c)
    | .Scf => let c := cpu.set_carry_flag; some ((c.pc + 1) % 65536, c)
    | .Cpl => let c := cpu.complement_a; some ((c.pc + 1) % 65536, c)
    | .Bit index r8 => let c := cpu.test_bit index r8; some ((c.pc + 1) % 65536, c)
    | .Res index r8 => let c := cpu.unset_bit index r8; some ((c.pc + 1) % 65536, c)
    | .Set index r8 => let c := cpu.set_bit index r8; some ((c.pc + 1) % 65536, c)
    | .Rr r8 => let c := cpu.rotate_right_with_carry r8; some ((c.pc + 1) % 65536, c)
    | .Rl r8 => let c := cpu.rotate_left_with_carry r8; some ((c.pc + 1) % 65536, c)
    | .Rrc r8 => let c := cpu.rotate_right_no_carry r8; some ((c.pc + 1) % 65536, c)
    | .Rlc r8 => let c := cpu.rotate_left_no_carry r8; some ((c.pc + 1) % 65536, c)
    | .Rla => let c := cpu.rotate_left_with_carry .A; some ((c.pc + 1) % 65536, c)
    | .Rrca => let c := cpu.rotate_right_no_carry .A; some ((c.pc + 1) % 65536, c)
    | .Rlca => let c := cpu.rotate_left_no_carry .A; some ((c.pc + 1) % 65536, c)
    | .Rra => let c := cpu.rotate_right_with_carry .A; some ((c.pc + 1) % 65536, c)
    | .Srl r8 => let c := cpu.shift_right_logically r8; some ((c.pc + 1) % 65536, c)
    | .Sra r8 => let c := cpu.shift_right_arithmetically r8; some ((c.pc + 1) % 65536, c)
    | .Sla r8 => let c := cpu.shift_left_arithmetically r8; some ((c.pc + 1) % 65536, c)
    | .Swap r8 => let c := cpu.swap r8; some ((c.pc + 1) % 65536, c)
    | .Jp condition => (cpu.jump condition).map fun addr => (addr, cpu)
    | .Ld load_type => cpu.load load_type
    | .Push r16 =>
      (cpu.push (cpu.get_stack_target_value r16)).map fun c => ((c.pc + 1) % 65536, c)
    | .Pop r16 =>
      cpu.pop.map fun res =>
        let c := res.2.set_stack_target_value r16 res.1
        ((c.pc + 1) % 65536, c)
    | .Call condition => cpu.call condition
    | .Ret condition => cpu.ret condition
    | .Nop => some ((cpu.pc + 1) % 65536, cpu)
    | .Halt => let c := { cpu with is_halted := true }; some ((c.pc + 1) % 65536, c)

/-! ## The opcode tables (`cpu/instructions/opcodes.rs`)

The file backing `mod opcodes` is not among the repository's sources; only its
two lookup functions' names and signatures are visible from
`Instruction::from_byte`: `get_opcode_unprefixed : u8 -> Option<Instruction>`
and `get_opcode_prefixed : u8 -> Instruction`.  Both are modelled from the
spec below. -/

/-- Modelled from the spec: the register an extended opcode's low three bits
select.  The spec says every extended opcode acts on one of the seven
addressable 8-bit registers; slot 6 (the console's indirect-HL slot, not
representable in this core's register operand type) is mapped to A as a
stand-in.  No claim depends on which instruction a given byte maps to, only
on the table being total. -/
def prefixedRegister (bits : Nat) : TargetRegister8 :=
  match bits with
  | 0 => .B
  | 1 => .C
  | 2 => .D
  | 3 => .E
  | 4 => .H
  | 5 => .L
  | _ => .A

/-- Modelled from the spec: the extended (bit-manipulation) opcode table,
total for all 256 byte values, mapping to rotate/shift/swap/bit-test/bit-set/
bit-clear operations over one of the seven addressable registers, following
the console's documented extended-table layout. -/
def get_opcode_prefixed (byte : Nat) : Instruction :=
  let r8 := prefixedRegister (Nat.land byte 0b111)
  let index := U3.wrap (byte >>> 3)
  match byte / 64 with
  | 0 =>
    match Nat.land (byte >>> 3) 0b111 with
    | 0 => .Rlc r8
    | 1 => .Rrc r8
    | 2 => .Rl r8
    | 3 => .Rr r8
    | 4 => .Sla r8
    | 5 => .Sra r8
    | 6 => .Swap r8
    | _ => .Srl r8
  | 1 => .Bit index r8
  | 2 => .Res index r8
  | _ => .Set index r8

/-- Modelled from the spec: the primary (unprefixed) opcode table, which is
partial — the console's documented invalid primary opcodes, among them 0xFC,
have no entry.  The claims evaluate this table only at 0xFC; recognized bytes
other than 0x00 (no-op) and 0x76 (halt) are modelled as placeholders, which no
claim inspects. -/
def get_opcode_unprefixed (byte : Nat) : Option Instruction :=
  match byte with
  | 0xD3 | 0xDB | 0xDD | 0xE3 | 0xE4 | 0xEB | 0xEC | 0xED
  | 0xF4 | 0xFC | 0xFD => none
  | 0x00 => some .Nop
  | 0x76 => some .Halt
  | _ => some .Nop

/-- Transcribes `Instruction::from_byte`: note that when `prefixed` is true it
consults `get_opcode_unprefixed`, and when false it consults
`get_opcode_prefixed`, the reverse of what its doc comment describes. -/
def Instruction.from_byte (byte : Nat) (prefixed : Bool) : Option Instruction :=
  match prefixed with
  | true => get_opcode_unprefixed byte
  | false => some (get_opcode_prefixed byte)

/-- Transcribes `Cpu::step`: fetch (detecting the prefix byte with a checked
`pc + 1`), decode, panic (`none`) on a failed decode, execute, store the next
program counter. -/
def Cpu.step (cpu : Cpu) : Option Cpu := do
  let instruction_byte ← cpu.bus.read_byte cpu.pc
  let is_prefixed := instruction_byte == PREFIX_BYTE
  let instruction_byte ←
    if is_prefixed then
      if 0xFFFF < cpu.pc + 1 then none else cpu.bus.read_byte (cpu.pc + 1)
    else pure instruction_byte
  match Instruction.from_byte instruction_byte is_prefixed with
  | some instruction => do
    let res ← cpu.execute instruction
    pure { res.2 with pc := res.1 }
  | none => none

/-! ## Helper lemmas about bit operations -/

/-- Masking with a single bit and shifting it down yields the tested bit. -/
theorem land_one_shiftLeft_shiftRight (v i : Nat) :
    Nat.land v (1 <<< i) >>> i = (v.testBit i).toNat := by
  show (v &&& (1 <<< i)) >>> i = (v.testBit i).toNat
  rw [Nat.one_shiftLeft, Nat.and_two_pow, Nat.shiftRight_eq_div_pow]
  exact Nat.mul_div_cancel _ (Nat.two_pow_pos i)

/-- Masking with a single bit is nonzero exactly when the bit is set. -/
theorem land_one_shiftLeft_ne_zero (v i : Nat) :
    Nat.land v (1 <<< i) ≠ 0 ↔ v.testBit i = true := by
  show v &&& (1 <<< i) ≠ 0 ↔ _
  rw [Nat.one_shiftLeft, Nat.and_two_pow]
  cases h : v.testBit i <;>
    simp [h, Nat.pos_iff_ne_zero, Nat.pow_eq_zero]

/-- Masking with 0xF keeps the value's low nibble. -/
theorem land_fifteen_eq_mod (n : Nat) : Nat.land n 0xF = n % 16 := by
  show n &&& 0xF = n % 16
  have h : (0xF : Nat) = 2 ^ 4 - 1 := by norm_num
  rw [h, Nat.and_pow_two_sub_one_eq_mod]

/-- Clearing the lowest bit rounds a tile-data offset down to an even value. -/
theorem land_even_mask_eq (address : Nat) (h : address < 0x1800) :
    Nat.land address 0xFFFE = address - address % 2 := by
  have h2 : address - address % 2 = 2 * (address / 2) := by omega
  rw [h2]
  apply Nat.eq_of_testBit_eq
  intro i
  rw [show Nat.land address 0xFFFE = address &&& 0xFFFE from rfl, Nat.testBit_land]
  cases i with
  | zero =>
    simp [Nat.testBit_zero, Nat.mul_mod_right]
  | succ j =>
    rw [Nat.testBit_succ, Nat.testBit_succ, Nat.testBit_succ,
      Nat.mul_div_cancel_left _ (by omega : (0 : Nat) < 2)]
    have he : (0xFFFE : Nat) / 2 = 2 ^ 15 - 1 := by norm_num
    rw [he, Nat.testBit_two_pow_sub_one]
    by_cases hj : j < 15
    · simp [hj]
    · have hb : (address / 2).testBit j = false := by
        apply Nat.testBit_eq_false_of_lt
        calc address / 2 < 2 ^ 15 := by omega
          _ ≤ 2 ^ j := Nat.pow_le_pow_right (by omega) (by omega)
      simp [hj, hb]

/-! ## C10 -/

/-- C10: the handlers for Sra (shift right arithmetically) and Srl (shift
right logically) are extensionally equal — for every starting CPU state
(register values and flags) and every target register they produce the same
register result and the same four flags; Sra does not preserve the sign bit. -/
theorem sra_srl_extensionally_equal :
    ∀ (cpu : Cpu) (target : TargetRegister8),
      Cpu.shift_right_arithmetically cpu target = Cpu.shift_right_logically cpu target :=
  fun _ _ => rfl

/-! ## C2 -/

/-- C2: contrary to the claim, decoding byte 0xFC with the prefixed flag true
returns no instruction (the swapped `from_byte` consults the partial
unprefixed table), while decoding 0xFC with the prefixed flag false succeeds
(it consults the total extended table). -/
theorem from_byte_consults_swapped_tables :
    Instruction.from_byte 0xFC true = none ∧
      (Instruction.from_byte 0xFC false).isSome = true := by
  exact ⟨rfl, rfl⟩

/-! ## C5 -/

/-- C5: contrary to the claim, bus reads are not total: the read at 0x3FFF
indexes the bank-0 array (whose declared size is 0x3FFF) out of bounds, every
read in the switchable-bank region 0x4000–0x7FFF indexes its array with the
raw (unoffset) address, and every read in the video-memory region
0x8000–0x9FFF passes the raw address to the VRAM array — all panic. -/
theorem read_byte_panics_in_rom_and_vram :
    MemoryBus.read_byte MemoryBus.default 0x3FFF = none ∧
      MemoryBus.read_byte MemoryBus.default 0x4000 = none ∧
      MemoryBus.read_byte MemoryBus.default 0x7FFF = none ∧
      MemoryBus.read_byte MemoryBus.default 0x8000 = none ∧
      MemoryBus.read_byte MemoryBus.default 0x9FFF = none := by
  refine ⟨rfl, rfl, rfl, rfl, rfl⟩

/-! ## C6 -/

/-- A bus whose working RAM holds 0xAB in its first cell, for C6. -/
def c6_echo_bus : MemoryBus :=
  { MemoryBus.default with working_ram := fun i => if i = 0 then 0xAB else 0 }

/-- C6: contrary to the claim, a bus write to the echo region 0xE000–0xFDFF
panics — `write_byte` has no arm for that region, so the address falls into
`unreachable!()` — even though on the read side the echo region does alias
working RAM (the same cell is returned at 0xE000 and 0xC000). -/
theorem echo_write_hits_unreachable :
    MemoryBus.write_byte MemoryBus.default 0xE000 0xAB = none ∧
      MemoryBus.write_byte MemoryBus.default 0xFDFF 0x01 = none ∧
      MemoryBus.read_byte c6_echo_bus 0xE000 = some 0xAB ∧
      MemoryBus.read_byte c6_echo_bus 0xC000 = some 0xAB := by
  refine ⟨rfl, rfl, rfl, rfl⟩

/-! ## C8 -/

/-- A CPU whose A register holds 0xFF, for C8. -/
def c8_full_cpu : Cpu :=
  { Cpu.default with registers := { Registers.default with a := 0xFF } }

/-- A CPU whose A register holds 0xFF with the carry flag set, for C8. -/
def c8_carry_cpu : Cpu :=
  { Cpu.default with
      registers := { Registers.default with
                      a := 0xFF
                      f := { FlagsRegister.default with carry := true } } }

/-- C8: contrary to the claim, the 8-bit arithmetic of Inc/Dec/Adc/Sbc is not
overflow-safe: Inc of a register holding 0xFF, Dec of a register holding
0x00, and Adc/Sbc with the carry flag set and operand 0xFF all abort (the
checked `+= 1` / `-= 1` / `value + old_carry` panic) instead of completing
with a wrapped result. -/
theorem checked_arithmetic_aborts_on_overflow :
    Cpu.increment c8_full_cpu TargetRegister8.A = none ∧
      Cpu.decrement Cpu.default TargetRegister8.A = none ∧
      Cpu.add_with_carry c8_carry_cpu TargetRegister8.A = none ∧
      Cpu.sub_with_carry c8_carry_cpu TargetRegister8.A = none := by
  refine ⟨rfl, rfl, rfl, rfl⟩

/-! ## C1 -/

/-- A halted CPU whose program counter is 5, for C1. -/
def c1_halted_cpu : Cpu := { Cpu.default with pc := 5, is_halted := true }

/-- C1: contrary to the claim, stepping a halted CPU does not return the
current program counter: `execute` returns the hard-coded value 0, so the
step resets the program counter to 0 (here from 5) while leaving the
registers, flags, stack pointer, bus and halted flag unchanged. -/
theorem halted_step_resets_pc_to_zero :
    Cpu.step c1_halted_cpu = some { c1_halted_cpu with pc := 0 } ∧
      c1_halted_cpu.pc = 5 := by
  exact ⟨rfl, rfl⟩

/-! ## C3 -/

/-- A CPU with pc 0x1000 and sp 0xFFF0 (stack in high RAM), for C3. -/
def c3_cpu : Cpu := { Cpu.default with pc := 0x1000, sp := 0xFFF0 }

/-- C3: contrary to the claim, a taken Call pushes sp + 3 (here 0xFFF3, high
byte 0xFF at high-RAM offset 0x6F, low byte 0xF3 at offset 0x6E), not the
return address pc + 3 (which would be 0x1003); it then jumps to the
little-endian word after the opcode (0x0000 on the default bus). -/
theorem call_pushes_sp_plus_three :
    (Cpu.call c3_cpu JumpTest.Always).map (fun res => res.1) = some 0 ∧
      (Cpu.call c3_cpu JumpTest.Always).map
          (fun res => (res.2.bus.high_ram 0x6F, res.2.bus.high_ram 0x6E, res.2.sp)) =
        some (0xFF, 0xF3, 0xFFEE) ∧
      256 * 0xFF + 0xF3 = c3_cpu.sp + 3 ∧
      256 * 0xFF + 0xF3 ≠ c3_cpu.pc + 3 := by
  refine ⟨rfl, rfl, by decide, by decide⟩

/-! ## C4 -/

/-- A CPU whose H register holds 0b11010111, for C4. -/
def c4_cpu : Cpu :=
  { Cpu.default with registers := { Registers.default with h := 0b11010111 } }

/-- C4 counterexample: with H = 0b11010111 and index 4 the selected bit is 1,
yet executing Bit(4, H) sets the zero flag to true — refuting the claim that
the zero flag is true exactly when the bit is 0 (the register itself is left
unmodified). -/
theorem bit_test_zero_flag_counterexample :
    (Cpu.test_bit c4_cpu (U3.wrap 4) TargetRegister8.H).registers.f.zero = true ∧
      Nat.testBit 0b11010111 4 = true ∧
      (Cpu.test_bit c4_cpu (U3.wrap 4) TargetRegister8.H).registers.h = 0b11010111 := by
  refine ⟨rfl, by decide, rfl⟩

/-- C4 amended: for every CPU state, bit index and register, executing Bit
sets the zero flag to true exactly when the bit at that index of the
register's value is 1 (the opposite of the claim), sets subtract to false and
half-carry to true, and leaves every register's value unmodified. -/
theorem bit_test_zero_iff_bit_set :
    ∀ (cpu : Cpu) (index : U3) (target : TargetRegister8),
      (Cpu.test_bit cpu index target).registers.f.zero
          = Nat.testBit (cpu.get_r8_value target) index.val ∧
        (Cpu.test_bit cpu index target).registers.f.subtract = false ∧
        (Cpu.test_bit cpu index target).registers.f.half_carry = true ∧
        ∀ t, (Cpu.test_bit cpu index target).get_r8_value t = cpu.get_r8_value t := by
  intro cpu index target
  refine ⟨?_, rfl, rfl, ?_⟩
  · show (!decide (Nat.land (cpu.get_r8_value target) (1 <<< index.val) >>> index.val = 0))
        = Nat.testBit (cpu.get_r8_value target) index.val
    rw [land_one_shiftLeft_shiftRight]
    cases h : (cpu.get_r8_value target).testBit index.val <;> rfl
  · intro t
    cases t <;> rfl

/-! ## C7 -/

/-- Writing a register through the operand dispatch and reading it back
returns the written value. -/
theorem get_r8_value_set_r8 (cpu : Cpu) (t : TargetRegister8) (v : Nat) :
    (cpu.set_r8 t v).get_r8_value t = v := by
  cases t <;> rfl

/-- Replacing the flags does not change any 8-bit register value. -/
theorem get_r8_value_setFlags (cpu : Cpu) (f : FlagsRegister) (t : TargetRegister8) :
    (cpu.setFlags f).get_r8_value t = cpu.get_r8_value t := by
  cases t <;> rfl

/-- Replacing the flags stores exactly those flags. -/
theorem setFlags_flags (cpu : Cpu) (f : FlagsRegister) :
    (cpu.setFlags f).registers.f = f := rfl

/-- A CPU whose A register holds 1, for the C7 counterexample. -/
def c7_cpu : Cpu :=
  { Cpu.default with registers := { Registers.default with a := 1 } }

/-- C7 counterexample: for register value 1 (whose low nibble is nonzero, so
the claim's hypothesis holds) the decremented value 0 has low nibble 0, not
0xF, so the claim says the half-carry flag must be true — but executing Dec
leaves it false. -/
theorem dec_half_carry_counterexample :
    (Cpu.decrement c7_cpu TargetRegister8.A).map
        (fun c => (c.registers.a, c.registers.f.half_carry)) = some (0, false) ∧
      (1 : Nat) % 16 ≠ 0 ∧ ((1 - 1 : Nat) % 16 ≠ 0xF) := by
  refine ⟨rfl, by decide, by decide⟩

/-- C7 amended: for every register value v < 256 with v mod 16 ≠ 0, executing
Dec stores v - 1, sets zero from the new value, sets subtract to false, and
sets half-carry to true exactly when the low nibble of the decremented value
is at least 7 (not whenever it differs from 0xF, as claimed). -/
theorem dec_half_carry_amended (cpu : Cpu) (target : TargetRegister8)
    (hlt : cpu.get_r8_value target < 256)
    (hmod : cpu.get_r8_value target % 16 ≠ 0) :
    (Cpu.decrement cpu target).map
        (fun c => (c.get_r8_value target, c.registers.f.zero,
          c.registers.f.subtract, c.registers.f.half_carry))
      = some (cpu.get_r8_value target - 1,
          decide (cpu.get_r8_value target - 1 = 0), false,
          decide (7 ≤ (cpu.get_r8_value target - 1) % 16)) := by
  have hv0 : ¬(cpu.get_r8_value target = 0) := by omega
  simp only [Cpu.decrement]
  rw [if_neg hv0]
  simp only [Option.map_some', get_r8_value_setFlags, get_r8_value_set_r8,
    setFlags_flags, land_fifteen_eq_mod, Option.some.injEq, Prod.mk.injEq,
    true_and, and_true]
  rw [decide_eq_decide]
  omega

/-- A CPU whose A register holds 9, for the C7 witness. -/
def c7_witness_cpu : Cpu :=
  { Cpu.default with registers := { Registers.default with a := 9 } }

/-- C7 witness: instantiating the amended theorem at register value 9. -/
theorem dec_half_carry_amended_witness :
    (Cpu.decrement c7_witness_cpu TargetRegister8.A).map
        (fun c => (c.get_r8_value TargetRegister8.A, c.registers.f.zero,
          c.registers.f.subtract, c.registers.f.half_carry))
      = some (8, false, false, true) := by
  have h := dec_half_carry_amended c7_witness_cpu TargetRegister8.A
    (by decide) (by decide)
  exact h

/-! ## C9 -/

/-- C9: a VRAM write inside the tile-data sub-region (offset < 0x1800) stores
the raw byte and recomputes exactly row (offset mod 16) div 2 of tile
(offset div 16): pixel p (p = 0 leftmost) becomes the 2-bit value combining
bit 7 − p of the high bit-plane byte (at the odd offset of the pair) and of
the low bit-plane byte (at the even offset); every other tile row is
untouched.  A write at offset ≥ 0x1800 never changes the tile cache.  Writing
0xFF then 0x00 at offsets 0 and 1 makes all 8 pixels of tile 0 row 0 One. -/
theorem write_vram_decodes_tile_row :
    (∀ (g : GPU) (address value : Nat), address < 0x1800 → value < 256 →
      ∃ g', GPU.write_vram g address value = some g' ∧
        g'.vram address = value ∧
        (∀ p, p < 8 →
          (g'.tile_set (address / 16) (address % 16 / 2) p).toNat
            = 2 * (if Nat.testBit (g'.vram (address - address % 2 + 1)) (7 - p) then 1 else 0)
              + (if Nat.testBit (g'.vram (address - address % 2)) (7 - p) then 1 else 0)) ∧
        (∀ t r p, ¬(t = address / 16 ∧ r = address % 16 / 2) →
          g'.tile_set t r p = g.tile_set t r p)) ∧
    (∀ (g : GPU) (address value : Nat), 0x1800 ≤ address → address < 0x2000 →
      ∃ g', GPU.write_vram g address value = some g' ∧
        g'.vram address = value ∧
        ∀ t r p, g'.tile_set t r p = g.tile_set t r p) ∧
    (∀ p, p < 8 →
      ((GPU.write_vram GPU.default 0 0xFF).bind
          (fun g => GPU.write_vram g 1 0x00)).map (fun g => g.tile_set 0 0 p)
        = some TilePixelValue.One) := by
  refine ⟨?_, ?_, ?_⟩
  · intro g address value h _hval
    have hvs : address < VRAM_SIZE := by
      have hv : VRAM_SIZE = 0x2000 := rfl
      omega
    have hts : ¬(TILESET_STORAGE_END ≤ address) := by
      have ht : TILESET_STORAGE_END = 0x1800 := rfl
      omega
    simp only [GPU.write_vram]
    rw [if_pos hvs, if_neg hts]
    refine ⟨_, rfl, by simp, ?_, ?_⟩
    · intro p hp
      show (if address / 16 = address / 16 ∧ address % 16 / 2 = address % 16 / 2 ∧ p < 8
            then _ else _ : TilePixelValue).toNat = _
      rw [if_pos ⟨rfl, rfl, hp⟩, land_even_mask_eq address h]
      set na := address - address % 2 with hna
      set vr : Nat → Nat := fun j => if j = address then value else g.vram j with hvr
      show (if Nat.land (vr na) (1 <<< (7 - p)) ≠ 0 then _ else _ : TilePixelValue).toNat = _
      cases ht1 : (vr na).testBit (7 - p) with
      | true =>
        rw [if_pos ((land_one_shiftLeft_ne_zero (vr na) (7 - p)).mpr ht1)]
        cases ht2 : (vr (na + 1)).testBit (7 - p) with
        | true =>
          rw [if_pos ((land_one_shiftLeft_ne_zero (vr (na + 1)) (7 - p)).mpr ht2)]
          simp [ht1, ht2, TilePixelValue.toNat]
        | false =>
          rw [if_neg (fun hc =>
            by simp [(land_one_shiftLeft_ne_zero (vr (na + 1)) (7 - p)).mp hc] at ht2)]
          simp [ht1, ht2, TilePixelValue.toNat]
      | false =>
        rw [if_neg (fun hc =>
          by simp [(land_one_shiftLeft_ne_zero (vr na) (7 - p)).mp hc] at ht1)]
        cases ht2 : (vr (na + 1)).testBit (7 - p) with
        | true =>
          rw [if_pos ((land_one_shiftLeft_ne_zero (vr (na + 1)) (7 - p)).mpr ht2)]
          simp [ht1, ht2, TilePixelValue.toNat]
        | false =>
          rw [if_neg (fun hc =>
            by simp [(land_one_shiftLeft_ne_zero (vr (na + 1)) (7 - p)).mp hc] at ht2)]
          simp [ht1, ht2, TilePixelValue.toNat]
    · intro t r p htr
      exact if_neg (fun hc => htr ⟨hc.1, hc.2.1⟩)
  · intro g address value h1 h2
    have hvs : address < VRAM_SIZE := by
      have hv : VRAM_SIZE = 0x2000 := rfl
      omega
    have hts : TILESET_STORAGE_END ≤ address := by
      have ht : TILESET_STORAGE_END = 0x1800 := rfl
      omega
    simp only [GPU.write_vram]
    rw [if_pos hvs, if_pos hts]
    exact ⟨_, rfl, by simp, fun t r p => rfl⟩
  · decide

/-- C9 witness: the tile-decode theorem instantiated at the default GPU,
offset 0 and value 0xFF, plus the concrete two-write scenario at pixel 0. -/
theorem write_vram_decodes_tile_row_witness :
    (∃ g', GPU.write_vram GPU.default 0 0xFF = some g' ∧ g'.vram 0 = 0xFF) ∧
      ((GPU.write_vram GPU.default 0 0xFF).bind
          (fun g => GPU.write_vram g 1 0x00)).map (fun g => g.tile_set 0 0 0)
        = some TilePixelValue.One := by
  refine ⟨?_, write_vram_decodes_tile_row.2.2 0 (by decide)⟩
  obtain ⟨g', h1, h2, -, -⟩ :=
    write_vram_decodes_tile_row.1 GPU.default 0 0xFF (by decide) (by decide)
  exact ⟨g', h1, h2⟩

end GameBoy
